import Mathlib

/-!
# Verification of the product-store client core

A shallow embedding of the repository's data-access layer
(`src/services/api.js`), Listing Controller (`pages/Products.jsx`) and
Detail Controller (`pages/ProductDetails.jsx`), together with proofs of
the specification's claims about them.

JavaScript objects are modelled as association lists from field names to
`JValue`s; property access on a missing key yields `JValue.undef`, as in
JavaScript. Asynchronous fetches are modelled by passing the outcome of
the network call (`FetchResult`) explicitly to each controller action,
and the React state updates performed by an action are modelled as a
function from controller state to controller state. Where an action
suspends at an `await`, the state visible at the suspension point is
exposed as the action's "pending" state.
-/

/-- JavaScript values, as far as the product-store client needs them.
The only arrays the client stores inside a record are arrays of strings
(the `images` URIs), so `arr` carries a list of strings. -/
inductive JValue : Type where
  | undef : JValue
  | jnull : JValue
  | num : Int → JValue
  | str : String → JValue
  | arr : List String → JValue
deriving DecidableEq, Repr

/-- Left-trim of a character list: drops leading whitespace. -/
def jsTrimLeft : List Char → List Char
  | [] => []
  | c :: cs => if c.isWhitespace then jsTrimLeft cs else c :: cs

/-- Model of JavaScript `String.prototype.trim`: drops leading and
trailing whitespace. -/
def jsTrim (s : String) : String :=
  String.mk ((jsTrimLeft (jsTrimLeft s.data).reverse).reverse)

/-- A JavaScript object: an association list of named fields. -/
abbrev JObject := List (String × JValue)

/-- Field lookup in an object: `some v` when the key is present. -/
def getField : JObject → String → Option JValue
  | [], _ => none
  | (k, v) :: rest, key => if k = key then some v else getField rest key

/-- JavaScript property access `o.k`: a missing key reads as `undefined`. -/
def getProp (o : JObject) (k : String) : JValue :=
  (getField o k).getD JValue.undef

/-- JavaScript array indexing `a[i]`: out-of-range or non-array reads as
`undefined`. -/
def getIndex : JValue → Int → JValue
  | JValue.arr xs, i =>
      if 0 ≤ i ∧ i.toNat < xs.length then JValue.str (xs.getD i.toNat "")
      else JValue.undef
  | _, _ => JValue.undef

/-- The 11 allow-listed fields of the product view model, in the order
`cleanProductData` writes them. -/
def productFields : List String :=
  ["id", "title", "description", "price", "discountPercentage", "rating",
   "stock", "brand", "category", "thumbnail", "images"]

/-- `cleanProductData` from `src/services/api.js`: builds a record whose 11
fields are read off the raw record by property access. -/
def cleanProductData (product : JObject) : JObject :=
  [("id", getProp product "id"),
   ("title", getProp product "title"),
   ("description", getProp product "description"),
   ("price", getProp product "price"),
   ("discountPercentage", getProp product "discountPercentage"),
   ("rating", getProp product "rating"),
   ("stock", getProp product "stock"),
   ("brand", getProp product "brand"),
   ("category", getProp product "category"),
   ("thumbnail", getProp product "thumbnail"),
   ("images", getProp product "images")]

/-- Outcome of one network round trip plus body decoding, as seen by the
caller of a data-access function: either the decoded value or a thrown
transport/parse failure. -/
inductive FetchResult (α : Type) : Type where
  | ok : α → FetchResult α
  | fail : FetchResult α
deriving DecidableEq, Repr

/-- What the remote can answer on GET /products/:id. A nonexistent
identifier yields an HTTP 404 whose JSON body is a bare message record;
fetch does not throw on a 404 and response.json() decodes that body. -/
inductive RemoteProductAnswer : Type where
  | found : JObject → RemoteProductAnswer
  | missing : String → RemoteProductAnswer
  | transportFailure : RemoteProductAnswer
deriving DecidableEq, Repr

/-- What the remote can answer on a list endpoint (GET /products,
GET /products/search): the raw product records, or a transport failure. -/
inductive RemoteListAnswer : Type where
  | ok : List JObject → RemoteListAnswer
  | transportFailure : RemoteListAnswer
deriving DecidableEq, Repr

/-- fetchProductById from src/services/api.js: decodes whatever body the
remote sent — including a 404 message body — and passes it through
cleanProductData. Only a transport/parse failure makes it throw. -/
def fetchProductById : RemoteProductAnswer → FetchResult JObject
  | RemoteProductAnswer.found raw => FetchResult.ok (cleanProductData raw)
  | RemoteProductAnswer.missing msg =>
      FetchResult.ok (cleanProductData [("message", JValue.str msg)])
  | RemoteProductAnswer.transportFailure => FetchResult.fail

/-- fetchProducts from src/services/api.js, restricted to the products
field the controllers consume: maps each raw record through
cleanProductData. -/
def fetchProducts : RemoteListAnswer → FetchResult (List JObject)
  | RemoteListAnswer.ok raws => FetchResult.ok (raws.map cleanProductData)
  | RemoteListAnswer.transportFailure => FetchResult.fail

/-- searchProducts from src/services/api.js, restricted to the products
field: same normalization as fetchProducts. -/
def searchProducts : RemoteListAnswer → FetchResult (List JObject)
  | RemoteListAnswer.ok raws => FetchResult.ok (raws.map cleanProductData)
  | RemoteListAnswer.transportFailure => FetchResult.fail

/-! ## Listing Controller (pages/Products.jsx) -/

/-- The state owned by the Products component. -/
structure ProductsState : Type where
  products : List JObject
  loading : Bool
  error : Option String
  inputValue : String
  searchQuery : String
  isSearching : Bool
deriving DecidableEq, Repr

/-- The useState initial values of the Products component. -/
def initialProductsState : ProductsState :=
  { products := [], loading := true, error := none,
    inputValue := "", searchQuery := "", isSearching := false }

/-- loadProducts (mount effect) at its await point: setLoading(true) has
run, the fetch has not resolved. -/
def loadProductsPending (st : ProductsState) : ProductsState :=
  { st with loading := true }

/-- Resolution of loadProducts: try stores the products, catch stores the
error message, finally clears loading. -/
def loadProductsResolve (st : ProductsState) :
    FetchResult (List JObject) → ProductsState
  | FetchResult.ok ps => { st with products := ps, loading := false }
  | FetchResult.fail =>
      { st with error := some "Failed to load products", loading := false }

/-- The whole loadProducts action of the mount effect. -/
def loadProducts (st : ProductsState) (remote : RemoteListAnswer) :
    ProductsState :=
  loadProductsResolve (loadProductsPending st) (fetchProducts remote)

/-- performSearch (the searchQuery effect) at its await point, on the
path where the query is non-empty and a fetch is issued. -/
def performSearchPending (st : ProductsState) : ProductsState :=
  { st with loading := true }

/-- Resolution of performSearch: try stores the results and sets
isSearching, catch stores the error message, finally clears loading. -/
def performSearchResolve (st : ProductsState) :
    FetchResult (List JObject) → ProductsState
  | FetchResult.ok ps =>
      { st with products := ps, isSearching := true, loading := false }
  | FetchResult.fail =>
      { st with error := some "Failed to search products", loading := false }

/-- The whole performSearch action: an empty committed query only clears
isSearching and returns without fetching; otherwise the search endpoint
is called. -/
def performSearch (st : ProductsState) (remote : RemoteListAnswer) :
    ProductsState :=
  if st.searchQuery = "" then { st with isSearching := false }
  else performSearchResolve (performSearchPending st) (searchProducts remote)

/-- handleSearch: commits the trimmed input as searchQuery. The effect on
searchQuery re-runs only when the committed value actually changes
(React skips work when a state is set to its current value). -/
def handleSearch (st : ProductsState) (remote : RemoteListAnswer) :
    ProductsState :=
  let t := jsTrim st.inputValue
  if t = st.searchQuery then st
  else performSearch { st with searchQuery := t } remote

/-- handleClear at its await point: the input and committed query have
been reset; the searchQuery effect, re-running on the change, saw an
empty query and cleared isSearching; setLoading(true) has run. -/
def handleClearPending (st : ProductsState) : ProductsState :=
  let st1 := { st with inputValue := "", searchQuery := "" }
  let st2 := if st.searchQuery = "" then st1 else { st1 with isSearching := false }
  { st2 with loading := true }

/-- Resolution of handleClear: try stores the default listing, catch
stores the error message, finally clears loading. -/
def handleClearResolve (st : ProductsState) :
    FetchResult (List JObject) → ProductsState
  | FetchResult.ok ps => { st with products := ps, loading := false }
  | FetchResult.fail =>
      { st with error := some "Failed to load products", loading := false }

/-- The whole handleClear action. -/
def handleClear (st : ProductsState) (remote : RemoteListAnswer) :
    ProductsState :=
  handleClearResolve (handleClearPending st) (fetchProducts remote)

/-- One user-driven step of the Listing Controller, with the remote's
answer for any fetch the step performs. -/
inductive ListingStep : Type where
  | mount : RemoteListAnswer → ListingStep
  | typeInput : String → ListingStep
  | commit : RemoteListAnswer → ListingStep
  | clear : RemoteListAnswer → ListingStep
deriving DecidableEq, Repr

/-- Applying one step to the listing state. typeInput is the search
box onChange handler, which only stores the keystrokes. -/
def applyStep (st : ProductsState) : ListingStep → ProductsState
  | ListingStep.mount r => loadProducts st r
  | ListingStep.typeInput s => { st with inputValue := s }
  | ListingStep.commit r => handleSearch st r
  | ListingStep.clear r => handleClear st r

/-- Running a sequence of steps from the initial listing state. -/
def runSteps (steps : List ListingStep) : ProductsState :=
  steps.foldl applyStep initialProductsState

/-- The Listing Controller invariant behind C9: a state in search mode
always carries a non-empty committed query. -/
def searchInv (st : ProductsState) : Prop :=
  st.isSearching = true → st.searchQuery ≠ ""

/-! ## Detail Controller (pages/ProductDetails.jsx) -/

/-- The state owned by the ProductDetails component. -/
structure DetailState : Type where
  product : Option JObject
  loading : Bool
  error : Option String
  selectedImage : Int
deriving DecidableEq, Repr

/-- The useState initial values of the ProductDetails component. -/
def initialDetailState : DetailState :=
  { product := none, loading := true, error := none, selectedImage := 0 }

/-- loadProduct (the id effect) at its await point: setLoading(true) has
run and nothing else has changed. -/
def loadProductPending (st : DetailState) : DetailState :=
  { st with loading := true }

/-- Resolution of loadProduct: try stores the decoded record as product,
catch stores the error message, finally clears loading. -/
def loadProductResolve (st : DetailState) :
    FetchResult JObject → DetailState
  | FetchResult.ok data => { st with product := some data, loading := false }
  | FetchResult.fail =>
      { st with error := some "Failed to load product", loading := false }

/-- The whole loadProduct action, run whenever the route id changes. -/
def loadProduct (st : DetailState) (remote : RemoteProductAnswer) :
    DetailState :=
  loadProductResolve (loadProductPending st) (fetchProductById remote)

/-- The thumbnail onClick handler: setSelectedImage(index), verbatim. -/
def setSelectedImage (st : DetailState) (index : Int) : DetailState :=
  { st with selectedImage := index }

/-- What the ProductDetails component renders: productView carries the
product record and the main-image value images[selectedImage]. -/
inductive DetailRender : Type where
  | loadingView : DetailRender
  | errorView : String → DetailRender
  | notFoundView : DetailRender
  | productView : JObject → JValue → DetailRender
deriving DecidableEq, Repr

/-- The component's render branches: loading, then error, then the
null-product guard, then the product markup. A non-null record — even
one whose fields are all undefined — is truthy and renders as a
product. -/
def renderDetail (st : DetailState) : DetailRender :=
  if st.loading then DetailRender.loadingView
  else
    match st.error with
    | some e => DetailRender.errorView e
    | none =>
        match st.product with
        | none => DetailRender.notFoundView
        | some p =>
            DetailRender.productView p
              (getIndex (getProp p "images") st.selectedImage)

/-! ## Concrete records used by witnesses and counterexamples -/

/-- A well-formed raw product record carrying two extra upstream fields
(sku, weight) beyond the 11 allow-listed ones. -/
def sampleRawProduct : JObject :=
  [("id", JValue.num 1), ("title", JValue.str "iPhone 9"),
   ("description", JValue.str "An apple mobile"),
   ("price", JValue.num 549), ("discountPercentage", JValue.num 12),
   ("rating", JValue.num 4), ("stock", JValue.num 94),
   ("brand", JValue.str "Apple"), ("category", JValue.str "smartphones"),
   ("thumbnail", JValue.str "thumb.jpg"),
   ("images", JValue.arr ["1.jpg", "2.jpg"]),
   ("sku", JValue.str "SKU-1"), ("weight", JValue.num 4)]

/-- A raw product record with no brand field at all. -/
def sampleRawNoBrand : JObject :=
  [("id", JValue.num 2), ("title", JValue.str "Pencil"),
   ("description", JValue.str "A pencil"),
   ("price", JValue.num 2), ("discountPercentage", JValue.num 0),
   ("rating", JValue.num 4), ("stock", JValue.num 10),
   ("category", JValue.str "stationery"),
   ("thumbnail", JValue.str "p.jpg"),
   ("images", JValue.arr ["p1.jpg"])]

/-- A raw record standing for the default (non-search) listing. -/
def rawDefault : JObject :=
  [("id", JValue.num 10), ("title", JValue.str "Default item"),
   ("description", JValue.str "d"), ("price", JValue.num 5),
   ("discountPercentage", JValue.num 0), ("rating", JValue.num 3),
   ("stock", JValue.num 7), ("brand", JValue.str "B"),
   ("category", JValue.str "c"), ("thumbnail", JValue.str "t.jpg"),
   ("images", JValue.arr ["d1.jpg"])]

/-- A raw record standing for a search result for the query phone. -/
def rawPhone : JObject :=
  [("id", JValue.num 20), ("title", JValue.str "Phone item"),
   ("description", JValue.str "p"), ("price", JValue.num 9),
   ("discountPercentage", JValue.num 1), ("rating", JValue.num 5),
   ("stock", JValue.num 3), ("brand", JValue.str "P"),
   ("category", JValue.str "phones"), ("thumbnail", JValue.str "q.jpg"),
   ("images", JValue.arr ["q1.jpg"])]

/-- Listing state reached by: mount succeeds with the default listing,
the user types phone, commits it, the search succeeds, then the user
types three spaces. -/
def stateAfterSearch : ProductsState :=
  runSteps
    [ListingStep.mount (RemoteListAnswer.ok [rawDefault]),
     ListingStep.typeInput "phone",
     ListingStep.commit (RemoteListAnswer.ok [rawPhone]),
     ListingStep.typeInput "   "]

/-- Detail state reached by loading sampleRawProduct successfully. -/
def stateDetailLoaded : DetailState :=
  loadProduct initialDetailState (RemoteProductAnswer.found sampleRawProduct)

/-- Detail state after the user clicks the second thumbnail. -/
def stateDetailImage1 : DetailState :=
  setSelectedImage stateDetailLoaded 1

/-- The remote 404 answer for a nonexistent product identifier. -/
def missingAnswer : RemoteProductAnswer :=
  RemoteProductAnswer.missing "Product with id '0' not found"

/-- Detail state after load of a nonexistent identifier. -/
def detailAfterMissing : DetailState :=
  loadProduct initialDetailState missingAnswer

/-! ## Helper lemmas -/

/-- If a key is present, property access wraps back to the stored value. -/
theorem some_getProp (o : JObject) (k : String) (h : (getField o k).isSome) :
    some (getProp o k) = getField o k := by
  unfold getProp
  cases hg : getField o k
  · simp [hg] at h
  · simp

/-- Field lookup returns none exactly when the key is absent. -/
theorem getField_eq_none_iff (o : JObject) (k : String) :
    getField o k = none ↔ k ∉ o.map Prod.fst := by
  induction o with
  | nil => simp [getField]
  | cons p rest ih =>
      obtain ⟨a, v⟩ := p
      by_cases hak : a = k
      · subst hak
        simp [getField]
      · simp [getField, hak, ih, Ne.symm hak]

/-! ## Claim C1 -/

/-- C1: for every raw record containing at least the 11 required fields,
cleanProductData returns a record containing exactly the 11 enumerated
fields, each with the value unchanged from the raw record, and no other
field. -/
theorem c1_cleanProductData_allowlist (raw : JObject)
    (h : ∀ f ∈ productFields, (getField raw f).isSome) :
    ((cleanProductData raw).map Prod.fst = productFields) ∧
    (∀ f ∈ productFields, getField (cleanProductData raw) f = getField raw f) ∧
    (∀ f, f ∉ productFields → getField (cleanProductData raw) f = none) := by
  refine ⟨rfl, ?_, ?_⟩
  · intro f hf
    have hs : (getField raw f).isSome := h f hf
    simp only [productFields, List.mem_cons, List.not_mem_nil, or_false] at hf
    rcases hf with rfl | rfl | rfl | rfl | rfl | rfl | rfl | rfl | rfl | rfl | rfl <;>
      · simp only [cleanProductData, getField, if_pos, if_neg, String.reduceEq, reduceIte]
        exact some_getProp _ _ hs
  · intro f hf
    rw [getField_eq_none_iff]
    have hkeys : (cleanProductData raw).map Prod.fst = productFields := rfl
    rw [hkeys]
    exact hf

/-- Witness for C1 at a concrete raw record with extra sku and weight
fields. -/
theorem c1_cleanProductData_allowlist_witness :
    (∀ f ∈ productFields, (getField sampleRawProduct f).isSome) ∧
    (((cleanProductData sampleRawProduct).map Prod.fst = productFields) ∧
     (∀ f ∈ productFields,
        getField (cleanProductData sampleRawProduct) f = getField sampleRawProduct f) ∧
     (∀ f, f ∉ productFields → getField (cleanProductData sampleRawProduct) f = none)) :=
  ⟨by decide, c1_cleanProductData_allowlist sampleRawProduct (by decide)⟩

/-! ## Claim C8 -/

/-- C8 counterexample: on a raw record with no brand field, the
normalized brand is the JavaScript undefined value, not the empty
string. -/
theorem c8_counterexample :
    getField (cleanProductData sampleRawNoBrand) "brand" = some JValue.undef ∧
    getField (cleanProductData sampleRawNoBrand) "brand" ≠ some (JValue.str "") := by
  decide

/-- C8 amended: for every raw record in which the brand field is absent,
the normalized record carries a brand field whose value is undefined
(the absent upstream value read back unchanged), not the empty string. -/
theorem c8_missing_brand_is_undefined (raw : JObject)
    (h : getField raw "brand" = none) :
    getField (cleanProductData raw) "brand" = some JValue.undef := by
  simp [cleanProductData, getField, getProp, h]

/-- Witness for the amended C8 at a concrete brandless record. -/
theorem c8_missing_brand_is_undefined_witness :
    getField sampleRawNoBrand "brand" = none ∧
    getField (cleanProductData sampleRawNoBrand) "brand" = some JValue.undef :=
  ⟨by decide, c8_missing_brand_is_undefined sampleRawNoBrand (by decide)⟩

/-! ## Claim C3 -/

/-- C3: when the remote reports a nonexistent identifier with a 404
message body, fetchProductById does not fail: it returns the message
body pushed through cleanProductData, a record whose 11 product fields
are all undefined. The Detail controller stores it with no error, and
the render takes the product branch — not the error or not-found
branch — with an undefined main image. This contradicts both the spec
and the component's own unreachable not-found branch. -/
theorem c3_missing_id_renders_undefined_product :
    fetchProductById missingAnswer
      = FetchResult.ok
          (cleanProductData [("message", JValue.str "Product with id '0' not found")]) ∧
    detailAfterMissing.error = none ∧
    detailAfterMissing.product.isSome = true ∧
    (∀ f ∈ productFields,
       getField (detailAfterMissing.product.getD []) f = some JValue.undef) ∧
    renderDetail detailAfterMissing
      = DetailRender.productView (detailAfterMissing.product.getD []) JValue.undef := by
  decide

/-! ## Claim C4 -/

/-- C4 counterexample: with the second image selected on a loaded
product, re-invoking load for another product leaves selectedImage at 1
both at the await point and after the fetch resolves; it is not reset
to 0. -/
theorem c4_counterexample :
    (loadProductPending stateDetailImage1).selectedImage = 1 ∧
    (loadProduct stateDetailImage1 (RemoteProductAnswer.found rawPhone)).selectedImage = 1 ∧
    (1 : Int) ≠ 0 := by
  decide

/-- C4 amended: re-invoking load only sets loading before the fetch;
product, error and selectedImage are left as they were at the await
point, and selectedImage also keeps its previous value after the fetch
resolves, so the image index carries over from the previous product. -/
theorem c4_load_preserves_detail_state (st : DetailState)
    (remote : RemoteProductAnswer) :
    (loadProductPending st).selectedImage = st.selectedImage ∧
    (loadProductPending st).product = st.product ∧
    (loadProductPending st).error = st.error ∧
    (loadProduct st remote).selectedImage = st.selectedImage := by
  refine ⟨rfl, rfl, rfl, ?_⟩
  cases remote <;> rfl

/-! ## Claim C5 -/

/-- C5 counterexample: on a loaded product with 2 images, selectImage 5
yields a state whose selected index is 5, outside the bounds of the
image list, and whose rendered main image is the undefined value. -/
theorem c5_counterexample :
    (setSelectedImage stateDetailLoaded 5).selectedImage = 5 ∧
    getProp ((setSelectedImage stateDetailLoaded 5).product.getD []) "images"
      = JValue.arr ["1.jpg", "2.jpg"] ∧
    ¬((setSelectedImage stateDetailLoaded 5).selectedImage < 2) ∧
    renderDetail (setSelectedImage stateDetailLoaded 5)
      = DetailRender.productView (cleanProductData sampleRawProduct) JValue.undef := by
  decide

/-- C5 amended: selectImage stores the given index unchanged, with no
bounds check, so an out-of-range index produces an out-of-bounds image
reference; but the thumbnail click handlers — the only callers in the
component — pass only indices below the image count, and for those the
selected image is the in-bounds list element. -/
theorem c5_selectImage_unclamped (st : DetailState) (k : Int)
    (xs : List String) (i : Nat) (hi : i < xs.length) :
    (setSelectedImage st k).selectedImage = k ∧
    getIndex (JValue.arr xs) ((setSelectedImage st (i : Int)).selectedImage)
      = JValue.str (xs.getD i "") := by
  refine ⟨rfl, ?_⟩
  have h0 : (0 : Int) ≤ (i : Int) := Int.natCast_nonneg i
  have ht : ((i : Int)).toNat = i := Int.toNat_natCast i
  simp [setSelectedImage, getIndex, h0, ht, hi]

/-- Witness for the amended C5 at index 5 (stored unchanged) and at the
in-range thumbnail index 1. -/
theorem c5_selectImage_unclamped_witness :
    1 < (["1.jpg", "2.jpg"] : List String).length ∧
    ((setSelectedImage stateDetailLoaded 5).selectedImage = 5 ∧
     getIndex (JValue.arr ["1.jpg", "2.jpg"])
        ((setSelectedImage stateDetailLoaded ((1 : Nat) : Int)).selectedImage)
       = JValue.str ((["1.jpg", "2.jpg"] : List String).getD 1 "")) :=
  ⟨by decide, c5_selectImage_unclamped stateDetailLoaded 5 ["1.jpg", "2.jpg"] 1 (by decide)⟩

/-! ## Claim C2 -/

/-- C2 counterexample: from a reachable state with a committed search
for phone and three spaces typed, committing the empty trimmed input
leaves the products at the search results — no re-fetch of the default
listing happens — whereas clearSearch restores the default listing; the
two actions are not equivalent. -/
theorem c2_counterexample :
    jsTrim stateAfterSearch.inputValue = "" ∧
    (handleSearch stateAfterSearch (RemoteListAnswer.ok [rawDefault])).products
      = [cleanProductData rawPhone] ∧
    (handleSearch stateAfterSearch (RemoteListAnswer.ok [rawDefault])).products
      ≠ (handleClear stateAfterSearch (RemoteListAnswer.ok [rawDefault])).products ∧
    (handleClear stateAfterSearch (RemoteListAnswer.ok [rawDefault])).products
      = [cleanProductData rawDefault] := by
  decide

/-- C2 amended: committing input whose trimmed value is empty performs
no fetch at all: when the committed query was already empty it is a
no-op, and otherwise it only empties the committed query and clears
isSearching, leaving products, error, loading and the raw input
untouched; it is not equivalent to clearSearch, which re-fetches the
default listing. -/
theorem c2_commit_empty_no_refetch (st : ProductsState)
    (remote : RemoteListAnswer) (h : jsTrim st.inputValue = "") :
    handleSearch st remote
      = if st.searchQuery = "" then st
        else { st with searchQuery := "", isSearching := false } := by
  by_cases hq : st.searchQuery = ""
  · simp [handleSearch, h, hq, performSearch]
  · simp [handleSearch, h, hq, performSearch, Ne.symm hq]

/-- Witness for the amended C2 at the reachable post-search state. -/
theorem c2_commit_empty_no_refetch_witness :
    jsTrim stateAfterSearch.inputValue = "" ∧
    handleSearch stateAfterSearch (RemoteListAnswer.ok [rawDefault])
      = (if stateAfterSearch.searchQuery = "" then stateAfterSearch
         else { stateAfterSearch with searchQuery := "", isSearching := false }) :=
  ⟨by decide,
   c2_commit_empty_no_refetch stateAfterSearch (RemoteListAnswer.ok [rawDefault])
     (by decide)⟩

/-! ## Claims C9, C10 and the invariant lemmas -/

/-- handleClear empties both input fields and ends non-searching unless
the committed query was already empty (in which case the searchQuery
effect does not re-run and isSearching keeps its value). -/
theorem handleClear_fields (st : ProductsState) (r : RemoteListAnswer) :
    (handleClear st r).inputValue = "" ∧ (handleClear st r).searchQuery = "" ∧
    (handleClear st r).isSearching
      = (if st.searchQuery = "" then st.isSearching else false) := by
  by_cases hq : st.searchQuery = "" <;> cases r <;>
    simp [handleClear, handleClearResolve, handleClearPending, fetchProducts, hq]

/-- Every listing step preserves the search invariant. -/
theorem searchInv_applyStep (st : ProductsState) (a : ListingStep)
    (h : searchInv st) : searchInv (applyStep st a) := by
  cases a with
  | mount r => cases r <;> exact h
  | typeInput s => exact h
  | commit r =>
      simp only [applyStep, handleSearch]
      split
      · exact h
      · unfold performSearch
        split
        · intro hs
          exact absurd hs (by simp)
        · next hne =>
            intro _
            have hsq :
                (performSearchResolve
                    (performSearchPending
                      { st with searchQuery := jsTrim st.inputValue })
                    (searchProducts r)).searchQuery = jsTrim st.inputValue := by
              cases r <;> rfl
            rw [hsq]
            exact hne
  | clear r =>
      intro hs
      rw [show (applyStep st (ListingStep.clear r)).isSearching
            = (if st.searchQuery = "" then st.isSearching else false) from
          (handleClear_fields st r).2.2] at hs
      by_cases hq : st.searchQuery = ""
      · rw [if_pos hq] at hs
        exact absurd hq (h hs)
      · rw [if_neg hq] at hs
        exact absurd hs (by simp)

/-- The search invariant holds after any run of steps from any state
satisfying it. -/
theorem searchInv_runSteps_aux (steps : List ListingStep) (st : ProductsState)
    (h : searchInv st) : searchInv (steps.foldl applyStep st) := by
  induction steps generalizing st with
  | nil => exact h
  | cons a rest ih => exact ih _ (searchInv_applyStep st a h)

/-- C9: after every completed sequence of Listing Controller actions
(mount load, typing, search commits, clears, with any fetch outcomes),
if isSearching is true then the committed searchQuery is non-empty. -/
theorem c9_searching_implies_nonempty_query (steps : List ListingStep)
    (hs : (runSteps steps).isSearching = true) :
    (runSteps steps).searchQuery ≠ "" :=
  searchInv_runSteps_aux steps initialProductsState
    (fun h => absurd h (by decide)) hs

/-- Witness for C9 on a run that ends in search mode. -/
theorem c9_searching_implies_nonempty_query_witness :
    (runSteps [ListingStep.mount (RemoteListAnswer.ok [rawDefault]),
               ListingStep.typeInput "phone",
               ListingStep.commit (RemoteListAnswer.ok [rawPhone])]).isSearching
      = true ∧
    (runSteps [ListingStep.mount (RemoteListAnswer.ok [rawDefault]),
               ListingStep.typeInput "phone",
               ListingStep.commit (RemoteListAnswer.ok [rawPhone])]).searchQuery
      ≠ "" :=
  ⟨by decide,
   c9_searching_implies_nonempty_query
     [ListingStep.mount (RemoteListAnswer.ok [rawDefault]),
      ListingStep.typeInput "phone",
      ListingStep.commit (RemoteListAnswer.ok [rawPhone])] (by decide)⟩

/-- C10: handleClear always resets the raw input and the committed query
to the empty string, whatever the outcome of the re-fetch — including
the path where the re-fetch of the default listing fails. -/
theorem c10_clear_resets_inputs (st : ProductsState) (r : RemoteListAnswer) :
    (handleClear st r).inputValue = "" ∧ (handleClear st r).searchQuery = "" :=
  ⟨(handleClear_fields st r).1, (handleClear_fields st r).2.1⟩

/-! ## Claim C6 -/

/-- A successful search commit leaves the stored error untouched. -/
theorem performSearch_ok_error (st : ProductsState) (raws : List JObject) :
    (performSearch st (RemoteListAnswer.ok raws)).error = st.error := by
  unfold performSearch
  split <;> rfl

/-- handleSearch with a successful fetch leaves the stored error
untouched. -/
theorem handleSearch_ok_error (st : ProductsState) (raws : List JObject) :
    (handleSearch st (RemoteListAnswer.ok raws)).error = st.error := by
  simp only [handleSearch]
  split
  · rfl
  · exact performSearch_ok_error _ raws

/-- The await-point state of handleClear keeps the stored error. -/
theorem handleClearPending_error (st : ProductsState) :
    (handleClearPending st).error = st.error := by
  unfold handleClearPending
  split <;> rfl

/-- C6 counterexample: a failed search commit followed by a successful
clearSearch leaves the search error in place — the error is not cleared
by the subsequent successful action. -/
theorem c6_counterexample :
    (runSteps [ListingStep.mount (RemoteListAnswer.ok [rawDefault]),
               ListingStep.typeInput "phone",
               ListingStep.commit RemoteListAnswer.transportFailure,
               ListingStep.clear (RemoteListAnswer.ok [rawDefault])]).error
      = some "Failed to search products" := by
  decide

/-- C6 amended: no controller action ever clears a stored error; every
successful action — initial load, search commit, clear, detail load —
leaves the error state exactly as it was, so an error persists until
the controller is torn down (it can only be overwritten by another
failure). -/
theorem c6_error_never_cleared (st : ProductsState) (raws : List JObject)
    (stD : DetailState) (raw : JObject) :
    (loadProducts st (RemoteListAnswer.ok raws)).error = st.error ∧
    (handleSearch st (RemoteListAnswer.ok raws)).error = st.error ∧
    (handleClear st (RemoteListAnswer.ok raws)).error = st.error ∧
    (loadProduct stD (RemoteProductAnswer.found raw)).error = stD.error :=
  ⟨rfl, handleSearch_ok_error st raws, handleClearPending_error st, rfl⟩

/-! ## Claim C7 -/

/-- C7: every fetch-triggering action — the mount load, the search
effect on a non-empty committed query, the clear, and the detail load —
has loading true at its await point and loading false after resolution,
on the success and the failure path alike (the finally clause). -/
theorem c7_loading_discipline (st : ProductsState) (r : RemoteListAnswer)
    (stD : DetailState) (rD : RemoteProductAnswer)
    (hq : st.searchQuery ≠ "") :
    ((loadProductsPending st).loading = true ∧
     (loadProducts st r).loading = false) ∧
    ((performSearchPending st).loading = true ∧
     (performSearch st r).loading = false) ∧
    ((handleClearPending st).loading = true ∧
     (handleClear st r).loading = false) ∧
    ((loadProductPending stD).loading = true ∧
     (loadProduct stD rD).loading = false) := by
  refine ⟨⟨rfl, ?_⟩, ⟨rfl, ?_⟩, ⟨rfl, ?_⟩, ⟨rfl, ?_⟩⟩
  · cases r <;> rfl
  · unfold performSearch
    rw [if_neg hq]
    cases r <;> rfl
  · cases r <;> rfl
  · cases rD <;> rfl

/-- Witness for C7 at a reachable searching state, a default-list fetch
outcome and a detail load. -/
theorem c7_loading_discipline_witness :
    stateAfterSearch.searchQuery ≠ "" ∧
    (((loadProductsPending stateAfterSearch).loading = true ∧
      (loadProducts stateAfterSearch (RemoteListAnswer.ok [rawDefault])).loading
        = false) ∧
     ((performSearchPending stateAfterSearch).loading = true ∧
      (performSearch stateAfterSearch (RemoteListAnswer.ok [rawDefault])).loading
        = false) ∧
     ((handleClearPending stateAfterSearch).loading = true ∧
      (handleClear stateAfterSearch (RemoteListAnswer.ok [rawDefault])).loading
        = false) ∧
     ((loadProductPending initialDetailState).loading = true ∧
      (loadProduct initialDetailState
          (RemoteProductAnswer.found sampleRawProduct)).loading = false)) :=
  ⟨by decide,
   c7_loading_discipline stateAfterSearch (RemoteListAnswer.ok [rawDefault])
     initialDetailState (RemoteProductAnswer.found sampleRawProduct) (by decide)⟩
